import Mathlib

/-!
Verification of the natural-language specification of the Extended Result
Code (ERC) generator against a shallow embedding of
`src/scripts/error_code_generator_defs/error_code_defs_generator.py`.

Modelling conventions.  Python integers are arbitrary precision, so they
are embedded as `Int`; Python's `&`, `|`, `<<` on them are `Int.land`,
`Int.lor` and `<<<` (Mathlib's two's-complement bitwise operations on `ℤ`,
which agree with Python's semantics on negative operands).  Python lists
become `List`, objects become structures, and methods that mutate `self`
become functions returning the updated structure together with the method's
return value.  String formatting is embedded with explicit concatenation;
`str(i)` is `toString (i : Int)` and `hex(i)` is `pyHex i` below.  File
system writes cannot occur in the embedding, so `generate_result_h_file`
returns `Option String`: `none` models the `return False` paths taken
before the file is opened, `some s` models a successful run that writes
exactly `s`.
-/

namespace ErcGen

/-- Function `MakeERC` of the source: packs facility, component and result
into one integer as `((facility & 0xF) << 0x1C) | ((component & 0xFF) << 0x14)
| (0xFFFFF & result)`. -/
def MakeERC (facility component result : Int) : Int :=
  Int.lor
    (Int.lor ((Int.land facility 0xF) <<< (0x1C : ℤ))
             ((Int.land component 0xFF) <<< (0x14 : ℤ)))
    (Int.land 0xFFFFF result)

/-- Class `ResultCode` of the source: the fields set by `__init__`. -/
structure ResultCode where
  name : String
  rc_value : Int
  full_erc_value : Int
deriving DecidableEq

/-- Constructor `ResultCode.__init__(_name, _rc_value, _fc_value, _cc_value)`:
stores the name, the raw value, and the packed code
`MakeERC(_fc_value, _cc_value, _rc_value)`. -/
def ResultCode.init (_name : String) (_rc_value _fc_value _cc_value : Int) : ResultCode :=
  ⟨_name, _rc_value, MakeERC _fc_value _cc_value _rc_value⟩

/-- Method `ResultCode.__eq__`: equal when the packed codes coincide or the
names coincide. -/
def ResultCode.eq (a b : ResultCode) : Bool :=
  a.full_erc_value == b.full_erc_value || a.name == b.name

/-- Class `ComponentCode` of the source: the fields set by `__init__`
(`results` starts empty). -/
structure ComponentCode where
  name : String
  value : Int
  doc_string : String
  facility_code : Int
  results : List ResultCode
deriving DecidableEq

/-- Constructor `ComponentCode.__init__`. -/
def ComponentCode.init (_name : String) (_value : Int) (_doc_string : String)
    (_facility_code : Int) : ComponentCode :=
  ⟨_name, _value, _doc_string, _facility_code, []⟩

/-- Method `ComponentCode.__eq__`: equal when value and owning facility code
both coincide, or the names coincide. -/
def ComponentCode.eq (a b : ComponentCode) : Bool :=
  (a.value == b.value && a.facility_code == b.facility_code) || a.name == b.name

/-- Method `ComponentCode.add_result`: appends `result` unless an equal one
(in the sense of `ResultCode.eq`) is already present; returns the updated
component and the method's boolean result. -/
def ComponentCode.add_result (c : ComponentCode) (result : ResultCode) :
    ComponentCode × Bool :=
  if c.results.any (fun r => ResultCode.eq r result) then (c, false)
  else ({ c with results := c.results ++ [result] }, true)

/-- Class `FacilityCode` of the source: the fields set by `__init__`
(`components` starts empty). -/
structure FacilityCode where
  name : String
  value : Int
  doc_string : String
  components : List ComponentCode
deriving DecidableEq

/-- Constructor `FacilityCode.__init__`. -/
def FacilityCode.init (_name : String) (_value : Int) (_doc_string : String) :
    FacilityCode :=
  ⟨_name, _value, _doc_string, []⟩

/-- Method `FacilityCode.__eq__`: equal when the codes coincide or the names
coincide. -/
def FacilityCode.eq (a b : FacilityCode) : Bool :=
  a.value == b.value || a.name == b.name

/-- Method `FacilityCode.add_component`: appends `component` unless an equal
one (in the sense of `ComponentCode.eq`) is already present. -/
def FacilityCode.add_component (f : FacilityCode) (component : ComponentCode) :
    FacilityCode × Bool :=
  if f.components.any (fun c => ComponentCode.eq c component) then (f, false)
  else ({ f with components := f.components ++ [component] }, true)

/-- Class `ErrorCodeDefinitionGenerator` of the source, restricted to the
state the claims are about: the ordered facility list.  The two path
strings set by `__init__` only feed the file-system calls, which the
embedding models through the return value of `generate_result_h_file`. -/
structure ErrorCodeDefinitionGenerator where
  facilities : List FacilityCode
deriving DecidableEq

/-- Method `ErrorCodeDefinitionGenerator.add_facility_code`: appends
`facility` unless an equal one (in the sense of `FacilityCode.eq`) is
already present. -/
def ErrorCodeDefinitionGenerator.add_facility_code
    (g : ErrorCodeDefinitionGenerator) (facility : FacilityCode) :
    ErrorCodeDefinitionGenerator × Bool :=
  if g.facilities.any (fun f => FacilityCode.eq f facility) then (g, false)
  else (⟨g.facilities ++ [facility]⟩, true)

/-! String rendering.  The sections below embed, character for character, the
module-level template strings of the source and the `get_*` string methods.
Literal braces of the C templates are written with the escapes `\x7b` and
`\x7d`; every other character is as in the source. -/

/-- Python's `hex` on a nonnegative integer: `0x` followed by the lowercase
base-16 digits. -/
def pyHexNat (n : Nat) : String :=
  "0x" ++ String.mk (Nat.toDigits 16 n)

/-- Python's `hex` on an arbitrary integer (negative values render with a
leading minus sign, as in Python). -/
def pyHex (i : Int) : String :=
  if i < 0 then "-" ++ pyHexNat (-i).toNat else pyHexNat i.toNat

/-- Module-level constant `tabsize` of the source. -/
def tabsize : Nat := 2

/-- Function `CreateBriefDoxyString` of the source. -/
def CreateBriefDoxyString (brief : String) : String :=
  "/**\n * @brief " ++ brief ++ "\n */\n "

/-- Function `CreateEnumDoxyString` of the source. -/
def CreateEnumDoxyString (brief : String) : String :=
  "//!< " ++ brief

/-- Module-level template `facility_func_definition` of the source, with the
two format fields as arguments. -/
def facility_func_definition (FacilityName FacilityFuncDeclString : String) : String :=
  "/**\n * @brief Extended Result Codes for " ++ FacilityName ++
  " Facility\n*/\nstatic inline ADUC_Result_t " ++ FacilityFuncDeclString ++
  "(const unsigned int component, const int32_t value)\n\x7b\n    return MAKE_ADUC_EXTENDEDRESULTCODE(" ++
  FacilityName ++ ", component, value);\n\x7d\n"

/-- Module-level template `component_func_definition` of the source, with the
three format fields as arguments. -/
def component_func_definition (ComponentName ComponentDecl FacilityFuncDeclString : String) :
    String :=
  "/**\n* @brief Function for generating Extended Result Codes for " ++ ComponentName ++
  " Component\n*/\nstatic inline ADUC_Result_t " ++ ComponentDecl ++
  "(const int32_t value)\n\x7b\n    return " ++ FacilityFuncDeclString ++ "(" ++
  ComponentName ++ ", value);\n\x7d\n"

/-- Method `FacilityCode.get_enum_doxy_comment`. -/
def FacilityCode.get_enum_doxy_comment (f : FacilityCode) : String :=
  CreateEnumDoxyString (f.name ++ " : " ++ toString f.value ++ ", " ++ f.doc_string)

/-- Method `FacilityCode.get_enum_define_with_comment`. -/
def FacilityCode.get_enum_define_with_comment (f : FacilityCode) (define_offset : Nat) :
    String :=
  let offset := String.mk (List.replicate define_offset ' ')
  offset ++ f.name ++ "=" ++ toString f.value ++ ", " ++ f.get_enum_doxy_comment ++ "\n"

/-- Method `FacilityCode.get_facility_func_decl_string`. -/
def FacilityCode.get_facility_func_decl_string (f : FacilityCode) : String :=
  "MAKE_ADUC_EXTENDEDRESULTCODE_FOR_FACILITY_" ++ f.name

/-- Method `FacilityCode.get_func_def_string`. -/
def FacilityCode.get_func_def_string (f : FacilityCode) : String :=
  facility_func_definition f.name f.get_facility_func_decl_string

/-- Method `ComponentCode.get_enum_doxy_comment`. -/
def ComponentCode.get_enum_doxy_comment (c : ComponentCode) : String :=
  CreateEnumDoxyString (c.name ++ " : " ++ toString c.value ++ ", " ++ c.doc_string)

/-- Method `ComponentCode.get_enum_define_with_comment`. -/
def ComponentCode.get_enum_define_with_comment (c : ComponentCode) (define_offset : Nat) :
    String :=
  let offset := String.mk (List.replicate define_offset ' ')
  offset ++ c.name ++ "=" ++ toString c.value ++ ", " ++ c.get_enum_doxy_comment ++ "\n"

/-- Method `ComponentCode.get_component_func_decl_string`. -/
def ComponentCode.get_component_func_decl_string (c : ComponentCode) : String :=
  "MAKE_ADUC_EXTENDEDRESULTCODE_FOR_COMPONENT_" ++ c.name

/-- Method `ComponentCode.get_func_def_string`. -/
def ComponentCode.get_func_def_string (c : ComponentCode) (facility_func_decl : String) :
    String :=
  component_func_definition c.name c.get_component_func_decl_string facility_func_decl

/-- Method `ResultCode.get_doxy_comment`: the brief shows the packed value in
decimal and, in parentheses, in hexadecimal. -/
def ResultCode.get_doxy_comment (r : ResultCode) : String :=
  CreateBriefDoxyString
    (r.name ++ ", ERC Value: " ++ toString r.full_erc_value ++ " (" ++
      pyHex r.full_erc_value ++ ")")

/-- Method `ResultCode.get_c_definition` (the source always calls it with the
default `define_offset=0`, rendering an empty offset). -/
def ResultCode.get_c_definition (r : ResultCode) (component_func_decl : String)
    (define_offset : Nat) : String :=
  let offset := String.mk (List.replicate define_offset ' ')
  "#" ++ offset ++ "define " ++ r.name ++ " " ++ component_func_decl ++ "(" ++
    toString r.rc_value ++ ")\n"

/-! Generator-level rendering: the `get_*` methods of
`ErrorCodeDefinitionGenerator` and the module-level file template.  The
imperative string-accumulation loops of the source are embedded as `List.foldl`
over the same collections in the same order. -/

/-- Fixed text of the module-level template `error_code_definition_file` up to
the `FacilityAndComponentEnums` field. -/
def resultTemplatePart1 : String :=
  "/**\n* @file result.h\n* @brief Describes the ADUC result type. Generated from result_codes.json by ErrorCodeDefinitionGenerator.py\n*\n* @copyright Copyright (c) Microsoft Corporation.\n* Licensed under the MIT License.\n*/\n#ifndef ADUC_RESULT_H\n#define ADUC_RESULT_H\n\n#include <stdbool.h> // _Bool\n#include <stdint.h> // int32_t\n\n/**\n* @brief Defines the type of an ADUC_Result.\n*/\ntypedef int32_t ADUC_Result_t;\n\n/**\n* @brief Defines an ADUC_Result object which is used to indicate status.\n*/\ntypedef struct tagADUC_Result\n\x7b\n    ADUC_Result_t ResultCode; /**< Method-specific result. Value > 0 indicates success. */\n    ADUC_Result_t ExtendedResultCode; /**< Implementation-specific extended result code. */\n\x7d ADUC_Result;\n\n/**\n* @brief Return value for general API calls.\n*/\ntypedef enum tagADUC_GeneralResult\n\x7b\n    ADUC_GeneralResult_Failure = 0, /**< Failed. */\n    ADUC_GeneralResult_Success = 1, /**< Succeeded. */\n\x7d ADUC_GeneralResult;\n\n/**\n* @brief Determines if a result code is succeeded.\n*/\nstatic inline _Bool IsAducResultCodeSuccess(const ADUC_Result_t resultCode)\n\x7b\n    return (resultCode > 0);\n\x7d\n\n/**\n* @brief Determines if a result code is failed.\n*/\nstatic inline _Bool IsAducResultCodeFailure(const ADUC_Result_t resultCode)\n\x7b\n    return (resultCode <= 0);\n\x7d\n\n/**\n* Extended Result Code Structure (32 bits)\n*\n* Note: We\x27re discussing a possibility to increase the size to 64 bits.\n*\n*    0 00 00000     Total 4 bytes (32 bits)\n*    - -- -----\n*    | |  |\n*    | |  |\n*    | |  +---------  Error code (20 bits)\n*    | |\n*    | +------------- Component/Area code (8 bits)\n*    |\n*    +--------------- Facility code (4 bits)\n*/\nstatic inline ADUC_Result_t\nMAKE_ADUC_EXTENDEDRESULTCODE(const unsigned int facility, const unsigned int component, const unsigned int value)\n\x7b\n    return ((facility & 0xF) << 0x1C) | ((component & 0xFF) << 0x14) | (value & 0xFFFFF);\n\x7d\n\n//\n// Facility and Component Code Definitions\n//\n"

/-- Fixed text of `error_code_definition_file` between the
`FacilityAndComponentEnums` and `ExtendedResultCodeGenerationFunctions`
fields. -/
def resultTemplatePart2 : String :=
  "\n//\n// Extended Result Code Make Functions\n//\n"

/-- Fixed text of `error_code_definition_file` between the
`ExtendedResultCodeGenerationFunctions` and `ExtendedResultCodeDefines`
fields. -/
def resultTemplatePart3 : String :=
  "\n//\n// Extended Result Code Definitions\n//\n"

/-- Fixed text of `error_code_definition_file` after the
`ExtendedResultCodeDefines` field. -/
def resultTemplatePart4 : String :=
  "\n//\n// STATIC FUNCTIONS, NOT GENERATED BUT USE GENERATED FUNCTIONS\n//\n\n\n/**\n * @brief Creates an extended error code for errors from delta processor API.\n * The facility code for these errors is ADUC_FACILITY_DOWNLOAD_HANDLER.\n * The component code for these errors is ADUC_COMPONENT_DELTA_DOWNLOAD_HANDLER_DELTA_PROCESSOR.\n *\n * @param errorCode The error code.\n */\n#define MAKE_DELTA_PROCESSOR_EXTENDEDRESULTCODE(errorCode) MAKE_ADUC_EXTENDEDRESULTCODE_FOR_COMPONENT_ADUC_COMPONENT_DELTA_DOWNLOAD_HANDLER_DELTA_PROCESSOR(errorCode)\n\n//\n// Delivery Optimization HRESULT to Extended Result Code Functions\n//\n\n/**\n * @brief Macros to convert Delivery Optimization results to extended result code values.\n */\nstatic inline ADUC_Result_t MAKE_ADUC_DELIVERY_OPTIMIZATION_EXTENDEDRESULTCODE(const int32_t value)\n\x7b\n    return ((ADUC_FACILITY_DELIVERY_OPTIMIZATION & 0xF) << 0x1C) | (value & 0xFFFFFFF);\n\x7d\n\n//\n// Reserved extension common error codes (0-300)\n//\n\n#define ADUC_ERC_EXTENSION_ERROR_NONE(facility, component) MAKE_ADUC_EXTENDEDRESULTCODE(facility, component, 0)\n\n#define ADUC_ERC_EXTENSION_CREATE_FAILURE_INVALID_ARG(facility, component) MAKE_ADUC_EXTENDEDRESULTCODE(facility, component, 1)\n\n#define ADUC_ERC_EXTENSION_CREATE_FAILURE_UNKNOWN(facility, component) MAKE_ADUC_EXTENDEDRESULTCODE(facility, component, 2)\n\n#define ADUC_ERC_EXTENSION_CREATE_FAILURE_NOT_FOUND(facility, component) MAKE_ADUC_EXTENDEDRESULTCODE(facility, component, 3)\n\n#define ADUC_ERC_EXTENSION_CREATE_FAILURE_VALIDATE(facility, component) MAKE_ADUC_EXTENDEDRESULTCODE(facility, component, 4)\n\n#define ADUC_ERC_EXTENSION_CREATE_FAILURE_LOAD(facility, component) MAKE_ADUC_EXTENDEDRESULTCODE(facility, component, 5)\n\n#define ADUC_ERC_EXTENSION_FAILURE_REQUIRED_FUNCTION_NOTIMPL(facility, component) MAKE_ADUC_EXTENDEDRESULTCODE(facility, component, 6)\n\n#define ADUC_ERC_EXTENSION_CREATE_FAILURE_CREATE(facility, component) MAKE_ADUC_EXTENDEDRESULTCODE(facility, component, 7)\n\n//\n// Child process error code generators\n//\n\n#define ADUC_ERC_SWUPDATE_HANDLER_CHILD_FAILURE_PROCESS_EXITCODE(exitCode) MAKE_ADUC_EXTENDEDRESULTCODE_FOR_COMPONENT_ADUC_CONTENT_HANDLER_SWUPDATE((0x1000 + exitCode))\n\n#define ADUC_ERC_SCRIPT_HANDLER_CHILD_PROCESS_FAILURE_EXITCODE(exitCode) MAKE_ADUC_EXTENDEDRESULTCODE_FOR_COMPONENT_ADUC_CONTENT_HANDLER_SCRIPT((0x1000 + exitCode))\n\n#define ADUC_ERROR_DELIVERY_OPTIMIZATION_DOWNLOADER_EXTERNAL_FAILURE(exitCode) MAKE_ADUC_EXTENDEDRESULTCODE_FOR_COMPONENT_ADUC_CONTENT_DOWNLOADER_DELIVERY_OPTIMIZATION((0x1000 + exitCode))\n\n#define ADUC_ERROR_CURL_DOWNLOADER_EXTERNAL_FAILURE(exitCode) MAKE_ADUC_EXTENDEDRESULTCODE_FOR_COMPONENT_ADUC_CONTENT_DOWNLOADER_CURL_DOWNLOADER((0x1000 + exitCode))\n\n#endif // ADUC_RESULT_H\n"

/-- The template `error_code_definition_file` applied to its three format
fields, as in `generate_result_h_file`. -/
def error_code_definition_file (FacilityAndComponentEnums : String)
    (ExtendedResultCodeGenerationFunctions : String)
    (ExtendedResultCodeDefines : String) : String :=
  resultTemplatePart1 ++ FacilityAndComponentEnums ++ resultTemplatePart2 ++
    ExtendedResultCodeGenerationFunctions ++ resultTemplatePart3 ++
    ExtendedResultCodeDefines ++ resultTemplatePart4

/-- Method `ErrorCodeDefinitionGenerator.get_facility_enum_def`: accumulates
one enum line per facility in list order, then wraps the accumulated body in
the fixed `ADUC_Facility` enum text. -/
def ErrorCodeDefinitionGenerator.get_facility_enum_def
    (g : ErrorCodeDefinitionGenerator) : String :=
  let facility_enum_body_string :=
    g.facilities.foldl
      (fun acc facility => acc ++ facility.get_enum_define_with_comment (tabsize * 2)) ""
  "/**\n * @brief Facility codes to pass to MAKE_ADUC_EXTENDEDRESULTCODE.\n */\ntypedef enum tagADUC_Facility\n\x7b\n" ++
    facility_enum_body_string ++ "\x7d ADUC_Facility;\n"

/-- Method `ErrorCodeDefinitionGenerator.get_component_enum_for_facility`:
accumulates one enum line per component of `facility` in list order, then
wraps the body in the facility-named component enum text. -/
def ErrorCodeDefinitionGenerator.get_component_enum_for_facility
    (facility : FacilityCode) : String :=
  let component_enum_body_string :=
    facility.components.foldl
      (fun acc component => acc ++ component.get_enum_define_with_comment (tabsize * 2)) ""
  "typedef enum tag" ++ facility.name ++ "_Components\n\x7b\n" ++
    component_enum_body_string ++ "\x7d " ++ facility.name ++ "_Components;\n\n"

/-- Loop body of `get_facility_and_component_code_defs`: walks the facility
list, appending the component enum of every facility whose component list is
nonempty; `none` models the `return ""` taken when a component enum renders
empty. -/
def componentEnumsLoop : List FacilityCode → String → Option String
  | [], component_enums => some component_enums
  | facility :: rest, component_enums =>
    if facility.components.length != 0 then
      let component_enum :=
        ErrorCodeDefinitionGenerator.get_component_enum_for_facility facility
      if component_enum == "" then none
      else componentEnumsLoop rest (component_enums ++ component_enum)
    else componentEnumsLoop rest component_enums

/-- Method `ErrorCodeDefinitionGenerator.get_facility_and_component_code_defs`:
the facility enum, a blank line, then the per-facility component enums;
`""` models the early `return ""` paths of the source. -/
def ErrorCodeDefinitionGenerator.get_facility_and_component_code_defs
    (g : ErrorCodeDefinitionGenerator) : String :=
  let facility_enum := g.get_facility_enum_def
  if facility_enum == "" then ""
  else
    match componentEnumsLoop g.facilities "" with
    | none => ""
    | some component_enums => facility_enum ++ "\n" ++ component_enums

/-- Method `ErrorCodeDefinitionGenerator.get_erc_make_functions`: for each
facility in order, its make function followed by the make functions of its
components, each terminated by a blank line. -/
def ErrorCodeDefinitionGenerator.get_erc_make_functions
    (g : ErrorCodeDefinitionGenerator) : String :=
  g.facilities.foldl
    (fun acc facility =>
      let acc2 := acc ++ facility.get_func_def_string ++ "\n"
      facility.components.foldl
        (fun acc3 component =>
          acc3 ++ component.get_func_def_string facility.get_facility_func_decl_string ++ "\n")
        acc2)
    ""

/-- Method `ErrorCodeDefinitionGenerator.get_extended_result_code_defs`: for
each result of each component of each facility, in list order, the result's
doxygen comment followed by its `#define`, terminated by a newline. -/
def ErrorCodeDefinitionGenerator.get_extended_result_code_defs
    (g : ErrorCodeDefinitionGenerator) : String :=
  g.facilities.foldl
    (fun acc facility =>
      facility.components.foldl
        (fun acc2 component =>
          component.results.foldl
            (fun acc3 result =>
              acc3 ++ result.get_doxy_comment ++
                result.get_c_definition component.get_component_func_decl_string 0 ++ "\n")
            acc2)
        acc)
    ""

/-- Method `ErrorCodeDefinitionGenerator.generate_result_h_file`: renders the
three sections, returns failure (`none`, the source's `return False`) when any
renders empty — this check precedes the file open — and otherwise succeeds
with the full file text that the source writes in a single call. -/
def ErrorCodeDefinitionGenerator.generate_result_h_file
    (g : ErrorCodeDefinitionGenerator) : Option String :=
  let facility_and_component_code_defs := g.get_facility_and_component_code_defs
  let erc_generation_functions := g.get_erc_make_functions
  let extended_result_code_defs := g.get_extended_result_code_defs
  if facility_and_component_code_defs == "" || erc_generation_functions == "" ||
      extended_result_code_defs == "" then
    none
  else
    some (error_code_definition_file facility_and_component_code_defs
      erc_generation_functions extended_result_code_defs)

/-- Modelled from the spec: the source file defines no `unpack`; section 4.3 of
the spec requires an inverse `unpack(code) -> (facility, component, value)`
reading the three fields of the documented 32-bit layout (4-bit facility at
bit 28, 8-bit component at bit 20, 20-bit value at bit 0). -/
def unpack (code : Int) : Int × Int × Int :=
  (Int.land (code >>> (28 : ℤ)) 0xF, Int.land (code >>> (20 : ℤ)) 0xFF,
    Int.land code 0xFFFFF)

/-- Concatenation of a list of strings, in order. -/
def strJoin : List String → String
  | [] => ""
  | s :: ss => s ++ strJoin ss

/-- Claim-side rendering of the per-facility component enumeration blocks:
only facilities with at least one component contribute, in insertion
order. -/
def specComponentEnumBlocks (g : ErrorCodeDefinitionGenerator) : String :=
  strJoin ((g.facilities.filter (fun f => f.components.length != 0)).map
    ErrorCodeDefinitionGenerator.get_component_enum_for_facility)

/-- Claim-side rendering of the make-accessor section: for each facility in
insertion order, its accessor followed immediately by the accessors of its
components. -/
def specMakeAccessors (g : ErrorCodeDefinitionGenerator) : String :=
  strJoin (g.facilities.map (fun f =>
    f.get_func_def_string ++ "\n" ++
      strJoin (f.components.map (fun c =>
        c.get_func_def_string f.get_facility_func_decl_string ++ "\n"))))

/-- Claim-side rendering of the named result constants: one per result, in
insertion order, the comment carrying the packed value in decimal and
hexadecimal and the define invoking the owning component accessor on the raw
value. -/
def specResultConstants (g : ErrorCodeDefinitionGenerator) : String :=
  strJoin (g.facilities.map (fun f =>
    strJoin (f.components.map (fun c =>
      strJoin (c.results.map (fun r =>
        CreateBriefDoxyString
            (r.name ++ ", ERC Value: " ++ toString r.full_erc_value ++ " (" ++
              pyHex r.full_erc_value ++ ")") ++
          ("#define " ++ r.name ++ " " ++ c.get_component_func_decl_string ++ "(" ++
            toString r.rc_value ++ ")\n") ++ "\n"))))))

/-- The spec's minimal valid model: one facility (code 1) holding one
component (code 2) holding one result (value 5). -/
def demoGen : ErrorCodeDefinitionGenerator :=
  ⟨[⟨"FAC_A", 1, "facility A",
      [⟨"COMP_X", 2, "component X", 1, [ResultCode.init "RES_OK" 5 1 2]⟩]⟩]⟩

/-- The text that `generate_result_h_file` produces for `demoGen`. -/
def demoOut : String :=
  (ErrorCodeDefinitionGenerator.generate_result_h_file demoGen).getD ""

/-! Arithmetic facts about the bitwise operations that `MakeERC` uses.  They
culminate in `makeERC_eq`, which rewrites the pack as plain integer
arithmetic on the three masked fields. -/

/-- A bitwise or of numbers with no common set bit is their sum. -/
theorem or_eq_add_of_and_eq_zero (x : Nat) : ∀ y : Nat, x &&& y = 0 → x ||| y = x + y := by
  induction x using Nat.strong_induction_on with
  | _ x ih =>
    intro y h
    rcases Nat.eq_zero_or_pos x with hx | hx
    · subst hx; simp
    · have hlt : x / 2 < x := Nat.div_lt_self hx (by norm_num)
      have h2 : x / 2 &&& y / 2 = 0 := by
        rw [← Nat.and_div_two, h]
      have ihh := ih (x / 2) hlt (y / 2) h2
      have hdm := Nat.div_add_mod (x ||| y) 2
      have hor : (x ||| y) / 2 = x / 2 ||| y / 2 := Nat.or_div_two
      have hone : (x ||| y) % 2 = 1 ↔ x % 2 = 1 ∨ y % 2 = 1 := Nat.or_mod_two_eq_one
      have hand : (x &&& y) % 2 = 1 ↔ x % 2 = 1 ∧ y % 2 = 1 := Nat.and_mod_two_eq_one
      have hx2 := Nat.div_add_mod x 2
      have hy2 := Nat.div_add_mod y 2
      have hm1 : (x ||| y) % 2 < 2 := Nat.mod_lt _ (by norm_num)
      have hm2 : x % 2 < 2 := Nat.mod_lt _ (by norm_num)
      have hm3 : y % 2 < 2 := Nat.mod_lt _ (by norm_num)
      rw [h] at hand
      rw [hor, ihh] at hdm
      omega

/-- Bit description of `Nat.ldiff`. -/
theorem testBit_ldiff (m n i : Nat) :
    (Nat.ldiff m n).testBit i = (m.testBit i && !(n.testBit i)) := by
  unfold Nat.ldiff
  exact Nat.testBit_bitwise (by rfl) m n i

/-- The bits of `m` split into those cleared and those kept by `n`. -/
theorem ldiff_or_and (m n : Nat) : Nat.ldiff m n ||| (m &&& n) = m := by
  apply Nat.eq_of_testBit_eq
  intro i
  rw [Nat.testBit_or, Nat.testBit_and, testBit_ldiff]
  cases m.testBit i <;> cases n.testBit i <;> rfl

/-- The two halves of the split share no bit. -/
theorem ldiff_and_disjoint (m n : Nat) : Nat.ldiff m n &&& (m &&& n) = 0 := by
  apply Nat.eq_of_testBit_eq
  intro i
  rw [Nat.testBit_and, Nat.testBit_and, testBit_ldiff, Nat.zero_testBit]
  cases m.testBit i <;> cases n.testBit i <;> rfl

/-- Summing the two halves of the split recovers `m`. -/
theorem ldiff_add_and (m n : Nat) : Nat.ldiff m n + (m &&& n) = m := by
  rw [← or_eq_add_of_and_eq_zero _ _ (ldiff_and_disjoint m n)]
  exact ldiff_or_and m n

/-- Clearing the low bits of an all-ones mask with `n` leaves the mask minus
the residue of `n`. -/
theorem ldiff_two_pow_sub_one (k n : Nat) :
    Nat.ldiff (2 ^ k - 1) n = 2 ^ k - 1 - n % 2 ^ k := by
  have h1 := ldiff_add_and (2 ^ k - 1) n
  have h2 : (2 ^ k - 1) &&& n = n % 2 ^ k := by
    rw [Nat.land_comm, Nat.and_pow_two_sub_one_eq_mod]
  omega

/-- Python's `x & (2^k - 1)` on an arbitrary integer is `x % 2^k` with the
nonnegative (Python / `Int.emod`) remainder. -/
theorem land_two_pow_sub_one (a : Int) (k : Nat) :
    Int.land a ((2 : ℤ) ^ k - 1) = a % ((2 : ℤ) ^ k) := by
  have h1 : (1 : ℕ) ≤ 2 ^ k := Nat.one_le_two_pow
  have hmask : ((2 : ℤ) ^ k - 1) = ((2 ^ k - 1 : ℕ) : ℤ) := by
    rw [Nat.cast_sub h1]
    push_cast
    ring
  have hpow : ((2 : ℤ) ^ k) = ((2 ^ k : ℕ) : ℤ) := by
    push_cast
    ring
  cases a with
  | ofNat n =>
    rw [hmask, hpow]
    rw [show Int.land (Int.ofNat n) ((2 ^ k - 1 : ℕ) : ℤ) =
          ((n &&& (2 ^ k - 1) : ℕ) : ℤ) from rfl]
    rw [Nat.and_pow_two_sub_one_eq_mod]
    rw [show (Int.ofNat n : ℤ) = ((n : ℕ) : ℤ) from rfl]
    exact_mod_cast rfl
  | negSucc n =>
    rw [hmask, hpow]
    rw [show Int.land (Int.negSucc n) ((2 ^ k - 1 : ℕ) : ℤ) =
          ((Nat.ldiff (2 ^ k - 1) n : ℕ) : ℤ) from rfl]
    rw [Int.negSucc_emod n (by exact_mod_cast Nat.two_pow_pos k)]
    rw [ldiff_two_pow_sub_one]
    rw [show ((n : ℤ) % ((2 ^ k : ℕ) : ℤ)) = ((n % 2 ^ k : ℕ) : ℤ) by
      exact_mod_cast rfl]
    have hm : n % 2 ^ k < 2 ^ k := Nat.mod_lt _ (Nat.two_pow_pos k)
    omega

/-- The 4-bit mask as a remainder. -/
theorem land_mod_16 (a : Int) : Int.land a 15 = a % 16 := by
  have h := land_two_pow_sub_one a 4
  norm_num at h
  exact h

/-- The 8-bit mask as a remainder. -/
theorem land_mod_256 (a : Int) : Int.land a 255 = a % 256 := by
  have h := land_two_pow_sub_one a 8
  norm_num at h
  exact h

/-- The 20-bit mask as a remainder. -/
theorem land_mod_2_20 (a : Int) : Int.land a 1048575 = a % 1048576 := by
  have h := land_two_pow_sub_one a 20
  norm_num at h
  exact h

/-- The integer bitwise and is commutative. -/
theorem int_land_comm (a b : Int) : Int.land a b = Int.land b a := by
  cases a <;> cases b <;> simp [Int.land, Nat.land_comm, Nat.lor_comm]

/-- Packing three already-masked `Nat` fields is plain positional
arithmetic. -/
theorem nat_pack_eq (fn cn vn : Nat) (_hf : fn < 16) (hc : cn < 256)
    (hv : vn < 1048576) :
    (fn <<< 28 ||| cn <<< 20) ||| vn = fn * 268435456 + cn * 1048576 + vn := by
  have e1 : fn <<< 28 = fn * 268435456 := by rw [Nat.shiftLeft_eq]
  have e2 : cn <<< 20 = cn * 1048576 := by rw [Nat.shiftLeft_eq]
  have hlt1 : cn * 1048576 < 2 ^ 28 := by omega
  have h1 := Nat.mul_add_lt_is_or hlt1 fn
  have hlt2 : vn < 2 ^ 20 := by omega
  have h2 := Nat.mul_add_lt_is_or hlt2 (fn * 256 + cn)
  have hs1 : (2 : ℕ) ^ 28 * fn = fn * 268435456 := by ring
  have hs2 : (2 : ℕ) ^ 20 * (fn * 256 + cn) = fn * 268435456 + cn * 1048576 := by ring
  rw [e1, e2, ← hs1, ← h1, hs1, ← hs2, h2]

/-- `MakeERC` as arithmetic: each field reduced mod its width, then placed at
its offset.  This is the computational heart of the pack. -/
theorem makeERC_eq (f c v : Int) :
    MakeERC f c v = (f % 16) * 268435456 + (c % 256) * 1048576 + v % 1048576 := by
  unfold MakeERC
  rw [land_mod_16, land_mod_256, int_land_comm 1048575 v, land_mod_2_20]
  have hF0 : 0 ≤ f % 16 := Int.emod_nonneg f (by norm_num)
  have hF1 : f % 16 < 16 := Int.emod_lt_of_pos f (by norm_num)
  have hC0 : 0 ≤ c % 256 := Int.emod_nonneg c (by norm_num)
  have hC1 : c % 256 < 256 := Int.emod_lt_of_pos c (by norm_num)
  have hV0 : 0 ≤ v % 1048576 := Int.emod_nonneg v (by norm_num)
  have hV1 : v % 1048576 < 1048576 := Int.emod_lt_of_pos v (by norm_num)
  obtain ⟨fn, hfn⟩ : ∃ fn : ℕ, f % 16 = ((fn : ℕ) : ℤ) :=
    ⟨(f % 16).toNat, (Int.toNat_of_nonneg hF0).symm⟩
  obtain ⟨cn, hcn⟩ : ∃ cn : ℕ, c % 256 = ((cn : ℕ) : ℤ) :=
    ⟨(c % 256).toNat, (Int.toNat_of_nonneg hC0).symm⟩
  obtain ⟨vn, hvn⟩ : ∃ vn : ℕ, v % 1048576 = ((vn : ℕ) : ℤ) :=
    ⟨(v % 1048576).toNat, (Int.toNat_of_nonneg hV0).symm⟩
  rw [hfn, hcn, hvn]
  have hfn1 : fn < 16 := by rw [hfn] at hF1; exact_mod_cast hF1
  have hcn1 : cn < 256 := by rw [hcn] at hC1; exact_mod_cast hC1
  have hvn1 : vn < 1048576 := by rw [hvn] at hV1; exact_mod_cast hV1
  rw [show ((0x1C : ℤ)) = ((28 : ℕ) : ℤ) by norm_num,
      show ((0x14 : ℤ)) = ((20 : ℕ) : ℤ) by norm_num]
  rw [Int.shiftLeft_coe_nat, Int.shiftLeft_coe_nat]
  rw [show Int.lor ((fn <<< 28 : ℕ) : ℤ) ((cn <<< 20 : ℕ) : ℤ) =
        ((fn <<< 28 ||| cn <<< 20 : ℕ) : ℤ) from rfl]
  rw [show Int.lor ((fn <<< 28 ||| cn <<< 20 : ℕ) : ℤ) ((vn : ℕ) : ℤ) =
        (((fn <<< 28 ||| cn <<< 20) ||| vn : ℕ) : ℤ) from rfl]
  rw [nat_pack_eq fn cn vn hfn1 hcn1 hvn1]
  push_cast
  ring


/-- Coercion fact: right shift of a natural number viewed in `ℤ` is natural
division by the corresponding power of two. -/
theorem coe_shiftRight (n k : ℕ) :
    ((n : ℤ) >>> ((k : ℕ) : ℤ)) = ((n / 2 ^ k : ℕ) : ℤ) := by
  rw [Int.shiftRight_coe_nat]
  rw [Nat.shiftRight_eq_div_pow]

/-- C1: for every facility code in `[0,15]`, component code in `[0,255]` and
value in `[0, 2^20-1]`, `MakeERC` returns
`((f & 0xF) << 28) | ((c & 0xFF) << 20) | (v & 0xFFFFF)` — stated with the
claim's operand order and, equivalently, as the positional sum — and in
particular `MakeERC 1 2 5 = 0x10200005`. -/
theorem C1_makeERC_formula :
    (∀ f c v : Int, 0 ≤ f → f ≤ 15 → 0 ≤ c → c ≤ 255 → 0 ≤ v → v ≤ 2 ^ 20 - 1 →
      MakeERC f c v =
        Int.lor (Int.lor ((Int.land f 0xF) <<< (28 : ℤ)) ((Int.land c 0xFF) <<< (20 : ℤ)))
          (Int.land v 0xFFFFF) ∧
      MakeERC f c v = f * 2 ^ 28 + c * 2 ^ 20 + v) ∧
    MakeERC 1 2 5 = 0x10200005 := by
  constructor
  · intro f c v hf0 hf1 hc0 hc1 hv0 hv1
    constructor
    · unfold MakeERC
      rw [int_land_comm 0xFFFFF v]
    · rw [makeERC_eq]
      rw [Int.emod_eq_of_lt hf0 (by omega), Int.emod_eq_of_lt hc0 (by omega),
          Int.emod_eq_of_lt hv0 (by omega)]
      norm_num
  · decide

/-- Witness for C1 at the spec's minimal scenario `(1, 2, 5)`. -/
theorem C1_makeERC_formula_witness :
    MakeERC 1 2 5 = 1 * 2 ^ 28 + 2 * 2 ^ 20 + 5 :=
  (C1_makeERC_formula.1 1 2 5 (by norm_num) (by norm_num) (by norm_num)
    (by norm_num) (by norm_num) (by norm_num)).2

/-- C4: `unpack` is a right inverse of the pack on in-range inputs. -/
theorem C4_unpack_roundtrip :
    ∀ f c v : Int, 0 ≤ f → f ≤ 15 → 0 ≤ c → c ≤ 255 → 0 ≤ v → v ≤ 2 ^ 20 - 1 →
      unpack (MakeERC f c v) = (f, c, v) := by
  intro f c v hf0 hf1 hc0 hc1 hv0 hv1
  rw [makeERC_eq]
  rw [Int.emod_eq_of_lt hf0 (by omega), Int.emod_eq_of_lt hc0 (by omega),
      Int.emod_eq_of_lt hv0 (by omega)]
  obtain ⟨fn, rfl⟩ : ∃ fn : ℕ, f = ((fn : ℕ) : ℤ) :=
    ⟨f.toNat, (Int.toNat_of_nonneg hf0).symm⟩
  obtain ⟨cn, rfl⟩ : ∃ cn : ℕ, c = ((cn : ℕ) : ℤ) :=
    ⟨c.toNat, (Int.toNat_of_nonneg hc0).symm⟩
  obtain ⟨vn, rfl⟩ : ∃ vn : ℕ, v = ((vn : ℕ) : ℤ) :=
    ⟨v.toNat, (Int.toNat_of_nonneg hv0).symm⟩
  have hfn : fn ≤ 15 := by exact_mod_cast hf1
  have hcn : cn ≤ 255 := by exact_mod_cast hc1
  have hvn : vn ≤ 1048575 := by
    have : (vn : ℤ) ≤ 1048575 := by omega
    exact_mod_cast this
  unfold unpack
  rw [show ((fn : ℤ) * 268435456 + (cn : ℤ) * 1048576 + (vn : ℤ)) =
        ((fn * 268435456 + cn * 1048576 + vn : ℕ) : ℤ) by push_cast; ring]
  rw [show ((28 : ℤ)) = ((28 : ℕ) : ℤ) by norm_num,
      show ((20 : ℤ)) = ((20 : ℕ) : ℤ) by norm_num]
  rw [coe_shiftRight, coe_shiftRight]
  rw [land_mod_16, land_mod_256, land_mod_2_20]
  simp only [Prod.mk.injEq]
  refine ⟨?_, ?_, ?_⟩
  · rw [show (((fn * 268435456 + cn * 1048576 + vn) / 2 ^ 28 : ℕ) : ℤ) % 16 =
          (((fn * 268435456 + cn * 1048576 + vn) / 2 ^ 28 % 16 : ℕ) : ℤ) by
        exact_mod_cast rfl]
    have : (fn * 268435456 + cn * 1048576 + vn) / 2 ^ 28 % 16 = fn := by omega
    rw [this]
  · rw [show (((fn * 268435456 + cn * 1048576 + vn) / 2 ^ 20 : ℕ) : ℤ) % 256 =
          (((fn * 268435456 + cn * 1048576 + vn) / 2 ^ 20 % 256 : ℕ) : ℤ) by
        exact_mod_cast rfl]
    have : (fn * 268435456 + cn * 1048576 + vn) / 2 ^ 20 % 256 = cn := by omega
    rw [this]
  · rw [show (((fn * 268435456 + cn * 1048576 + vn : ℕ) : ℤ)) % 1048576 =
          (((fn * 268435456 + cn * 1048576 + vn) % 1048576 : ℕ) : ℤ) by
        exact_mod_cast rfl]
    have : (fn * 268435456 + cn * 1048576 + vn) % 1048576 = vn := by omega
    rw [this]

/-- Witness for C4 at the spec's minimal scenario `(1, 2, 5)`. -/
theorem C4_unpack_roundtrip_witness : unpack (MakeERC 1 2 5) = (1, 2, 5) :=
  C4_unpack_roundtrip 1 2 5 (by norm_num) (by norm_num) (by norm_num)
    (by norm_num) (by norm_num) (by norm_num)

/-- C9: the pack is total (it is a Lean function, so it cannot raise) and
masking is its defined behaviour on every integer input, including negative
and out-of-range ones: pre-masking each argument does not change the
output. -/
theorem C9_mask_is_defined_behaviour :
    ∀ f c v : Int,
      MakeERC f c v = MakeERC (Int.land f 0xF) (Int.land c 0xFF) (Int.land v 0xFFFFF) := by
  intro f c v
  rw [makeERC_eq, makeERC_eq]
  rw [land_mod_16, land_mod_256, land_mod_2_20]
  rw [Int.emod_emod_of_dvd f dvd_rfl, Int.emod_emod_of_dvd c dvd_rfl,
      Int.emod_emod_of_dvd v dvd_rfl]


/-! Claims about the insertion operations of the hierarchy model. -/

/-- Propositional reading of `FacilityCode.eq`. -/
theorem facilityEq_iff (a b : FacilityCode) :
    FacilityCode.eq a b = true ↔ (a.value = b.value ∨ a.name = b.name) := by
  unfold FacilityCode.eq
  simp

/-- Propositional reading of `ComponentCode.eq`. -/
theorem componentEq_iff (a b : ComponentCode) :
    ComponentCode.eq a b = true ↔
      ((a.value = b.value ∧ a.facility_code = b.facility_code) ∨ a.name = b.name) := by
  unfold ComponentCode.eq
  simp

/-- Success condition of `add_facility_code`: exactly the absence of a
facility sharing a code or a name. -/
theorem add_facility_success_iff (g : ErrorCodeDefinitionGenerator) (fac : FacilityCode) :
    (g.add_facility_code fac).2 = true ↔
      ∀ f0 ∈ g.facilities, f0.value ≠ fac.value ∧ f0.name ≠ fac.name := by
  unfold ErrorCodeDefinitionGenerator.add_facility_code
  by_cases h : (g.facilities.any (fun f => FacilityCode.eq f fac)) = true
  · rw [if_pos h]
    simp only [List.any_eq_true, facilityEq_iff] at h
    obtain ⟨f0, hmem, hor⟩ := h
    constructor
    · intro hfalse
      exact absurd hfalse (by simp)
    · intro hall
      rcases hor with h1 | h1
      · exact absurd h1 (hall f0 hmem).1
      · exact absurd h1 (hall f0 hmem).2
  · rw [if_neg h]
    simp only [List.any_eq_true, facilityEq_iff] at h
    push_neg at h
    exact ⟨fun _ => h, fun _ => rfl⟩

/-- Success condition of `add_component`: exactly the absence of a component
sharing (code, owning facility code) or a name. -/
theorem add_component_success_iff (fc : FacilityCode) (comp : ComponentCode) :
    (fc.add_component comp).2 = true ↔
      ∀ c0 ∈ fc.components,
        ¬(c0.value = comp.value ∧ c0.facility_code = comp.facility_code) ∧
          c0.name ≠ comp.name := by
  unfold FacilityCode.add_component
  by_cases h : (fc.components.any (fun c => ComponentCode.eq c comp)) = true
  · rw [if_pos h]
    simp only [List.any_eq_true, componentEq_iff] at h
    obtain ⟨c0, hmem, hor⟩ := h
    constructor
    · intro hfalse
      exact absurd hfalse (by simp)
    · intro hall
      rcases hor with h1 | h1
      · exact absurd h1 (hall c0 hmem).1
      · exact absurd h1 (hall c0 hmem).2
  · rw [if_neg h]
    simp only [List.any_eq_true, componentEq_iff] at h
    push_neg at h
    refine ⟨fun _ c0 hmem => ?_, fun _ => rfl⟩
    have := h c0 hmem
    tauto

/-- C2 counterexample: the code performs no range check at insertion time.
Adding the out-of-range facility code 16 to an empty generator succeeds with
the facility appended (the claim requires a `RangeError` rejection), and a
component with the out-of-range code 256 is accepted as well. -/
theorem C2_counterexample :
    (ErrorCodeDefinitionGenerator.add_facility_code ⟨[]⟩
        (FacilityCode.init "FAC_A" 16 "docA")) =
      (⟨[FacilityCode.init "FAC_A" 16 "docA"]⟩, true) ∧
    ((FacilityCode.init "FAC_A" 16 "docA").add_component
        (ComponentCode.init "COMP_X" 256 "docX" 16)) =
      (⟨"FAC_A", 16, "docA", [ComponentCode.init "COMP_X" 256 "docX" 16]⟩, true) := by
  constructor <;> rfl

/-- C2 amended: no range check happens at `add_facility_code` or
`add_component` time — insertion succeeds exactly when no duplicate (by
name, or by code at the relevant scope) is present, so a facility code of 16
is accepted exactly like 15, and a component code of 256 is accepted. -/
theorem C2_no_range_check :
    (∀ (g : ErrorCodeDefinitionGenerator) (fac : FacilityCode),
      (g.add_facility_code fac).2 = true ↔
        ∀ f0 ∈ g.facilities, f0.value ≠ fac.value ∧ f0.name ≠ fac.name) ∧
    (∀ (fc : FacilityCode) (comp : ComponentCode),
      (fc.add_component comp).2 = true ↔
        ∀ c0 ∈ fc.components,
          ¬(c0.value = comp.value ∧ c0.facility_code = comp.facility_code) ∧
            c0.name ≠ comp.name) ∧
    (ErrorCodeDefinitionGenerator.add_facility_code ⟨[]⟩
        (FacilityCode.init "FAC_B" 16 "")).2 = true ∧
    (ErrorCodeDefinitionGenerator.add_facility_code ⟨[]⟩
        (FacilityCode.init "FAC_B" 15 "")).2 = true ∧
    ((FacilityCode.init "FAC_B" 1 "").add_component
        (ComponentCode.init "COMP_Y" 256 "" 1)).2 = true :=
  ⟨add_facility_success_iff, add_component_success_iff, by decide, by decide, by decide⟩

/-- Witness for C2 as amended: the out-of-range facility code 16 is accepted
into an empty generator. -/
theorem C2_no_range_check_witness :
    (ErrorCodeDefinitionGenerator.add_facility_code ⟨[]⟩
        (FacilityCode.init "FAC_W" 16 "")).2 = true :=
  (C2_no_range_check.1 ⟨[]⟩ (FacilityCode.init "FAC_W" 16 "")).mpr (by simp)

/-- C5: inserting a facility duplicating an existing name (even with another
code) or an existing code (even with another name) fails and leaves the state
unchanged; otherwise the facility is appended at the end of the ordered list
and the operation succeeds. -/
theorem C5_add_facility_duplicates :
    ∀ (g : ErrorCodeDefinitionGenerator) (fac : FacilityCode),
      ((∃ f0 ∈ g.facilities, f0.name = fac.name ∨ f0.value = fac.value) →
        g.add_facility_code fac = (g, false)) ∧
      ((∀ f0 ∈ g.facilities, f0.name ≠ fac.name ∧ f0.value ≠ fac.value) →
        g.add_facility_code fac = (⟨g.facilities ++ [fac]⟩, true)) := by
  intro g fac
  constructor
  · rintro ⟨f0, hmem, hor⟩
    unfold ErrorCodeDefinitionGenerator.add_facility_code
    rw [if_pos]
    simp only [List.any_eq_true]
    exact ⟨f0, hmem, (facilityEq_iff f0 fac).mpr hor.symm⟩
  · intro hall
    unfold ErrorCodeDefinitionGenerator.add_facility_code
    rw [if_neg]
    simp only [List.any_eq_true, facilityEq_iff]
    rintro ⟨f0, hmem, h1 | h1⟩
    · exact (hall f0 hmem).2 h1
    · exact (hall f0 hmem).1 h1

/-- Witness for C5: a same-name insert fails, a fresh insert appends. -/
theorem C5_add_facility_duplicates_witness :
    ErrorCodeDefinitionGenerator.add_facility_code
        ⟨[FacilityCode.init "FAC_A" 1 ""]⟩ (FacilityCode.init "FAC_A" 2 "") =
      (⟨[FacilityCode.init "FAC_A" 1 ""]⟩, false) ∧
    ErrorCodeDefinitionGenerator.add_facility_code
        ⟨[FacilityCode.init "FAC_A" 1 ""]⟩ (FacilityCode.init "FAC_B" 2 "") =
      (⟨[FacilityCode.init "FAC_A" 1 "", FacilityCode.init "FAC_B" 2 ""]⟩, true) :=
  ⟨(C5_add_facility_duplicates ⟨[FacilityCode.init "FAC_A" 1 ""]⟩
        (FacilityCode.init "FAC_A" 2 "")).1
      ⟨FacilityCode.init "FAC_A" 1 "", by decide, Or.inl rfl⟩,
   (C5_add_facility_duplicates ⟨[FacilityCode.init "FAC_A" 1 ""]⟩
        (FacilityCode.init "FAC_B" 2 "")).2 (by decide)⟩

/-- Adding a result whose packed code equals that of a result already in the
component fails and leaves the component unchanged. -/
theorem add_result_packed_duplicate (c : ComponentCode) (r1 r2 : ResultCode)
    (hmem : r1 ∈ c.results) (h : r1.full_erc_value = r2.full_erc_value) :
    c.add_result r2 = (c, false) := by
  unfold ComponentCode.add_result
  rw [if_pos]
  simp only [List.any_eq_true]
  refine ⟨r1, hmem, ?_⟩
  unfold ResultCode.eq
  rw [h]
  simp

/-- C3 counterexample: under one component, a first result with raw value 5
is accepted, but a second result with the same raw value 5 and a different
name is rejected — the claim requires both adds to succeed. -/
theorem C3_counterexample :
    ((ComponentCode.init "COMP_X" 2 "" 1).add_result (ResultCode.init "RES_A" 5 1 2)).2
        = true ∧
    (((ComponentCode.init "COMP_X" 2 "" 1).add_result
          (ResultCode.init "RES_A" 5 1 2)).1.add_result
        (ResultCode.init "RES_B" 5 1 2)).2 = false := by
  constructor <;> decide

/-- C3 amended: after a result with raw value `v` enters a component, adding
a second result with a different (indeed any) name but the same raw value and
the same facility/component codes fails, because duplicate detection compares
packed codes (or names) and equal raw values pack identically. -/
theorem C3_same_value_rejected :
    ∀ (c : ComponentCode) (n1 n2 : String) (v fc cc : Int),
      (c.add_result (ResultCode.init n1 v fc cc)).2 = true →
      ((c.add_result (ResultCode.init n1 v fc cc)).1.add_result
          (ResultCode.init n2 v fc cc)) =
        ((c.add_result (ResultCode.init n1 v fc cc)).1, false) := by
  intro c n1 n2 v fc cc h
  have hmem : ResultCode.init n1 v fc cc ∈
      (c.add_result (ResultCode.init n1 v fc cc)).1.results := by
    unfold ComponentCode.add_result at h ⊢
    by_cases hc : (c.results.any (fun r => ResultCode.eq r (ResultCode.init n1 v fc cc)))
        = true
    · rw [if_pos hc] at h
      cases h
    · rw [if_neg hc]
      simp
  exact add_result_packed_duplicate _ (ResultCode.init n1 v fc cc) _ hmem rfl

/-- Witness for C3 as amended: value 7 twice under distinct names; the second
add fails. -/
theorem C3_same_value_rejected_witness :
    ((ComponentCode.init "COMP_W" 2 "" 1).add_result
        (ResultCode.init "RES_C" 7 1 2)).1.add_result (ResultCode.init "RES_D" 7 1 2) =
      (((ComponentCode.init "COMP_W" 2 "" 1).add_result
          (ResultCode.init "RES_C" 7 1 2)).1, false) :=
  C3_same_value_rejected (ComponentCode.init "COMP_W" 2 "" 1) "RES_C" "RES_D" 7 1 2
    (by decide)

/-- C10: duplicate detection for results compares fully packed codes, not raw
values: when a component holds a result built from raw value `v1` under codes
`fc`, `cc`, and `v2` is congruent to `v1` modulo `2^20`, adding a result with
any other name and raw value `v2` under the same codes fails and the result
list is unchanged. -/
theorem C10_packed_code_duplicate :
    ∀ (c : ComponentCode) (n1 n2 : String) (v1 v2 fc cc : Int),
      ResultCode.init n1 v1 fc cc ∈ c.results →
      v2 % 2 ^ 20 = v1 % 2 ^ 20 →
      c.add_result (ResultCode.init n2 v2 fc cc) = (c, false) := by
  intro c n1 n2 v1 v2 fc cc hmem hcong
  apply add_result_packed_duplicate c (ResultCode.init n1 v1 fc cc) _ hmem
  show MakeERC fc cc v1 = MakeERC fc cc v2
  rw [makeERC_eq, makeERC_eq]
  norm_num at hcong
  rw [hcong]

/-- Witness for C10: value 1048581 collides with value 5 modulo `2^20` and is
rejected. -/
theorem C10_packed_code_duplicate_witness :
    ComponentCode.add_result
        ⟨"COMP_Z", 2, "", 1, [ResultCode.init "RES_E" 5 1 2]⟩
        (ResultCode.init "RES_F" 1048581 1 2) =
      (⟨"COMP_Z", 2, "", 1, [ResultCode.init "RES_E" 5 1 2]⟩, false) :=
  C10_packed_code_duplicate ⟨"COMP_Z", 2, "", 1, [ResultCode.init "RES_E" 5 1 2]⟩
    "RES_E" "RES_F" 5 1048581 1 2 (by decide) (by decide)


/-! Claims about the emission pipeline. -/

/-- A string-accumulating fold whose step appends a fixed rendering of each
element is the accumulator followed by the join of the renderings. -/
theorem foldl_congr_append {α : Type} (step : String → α → String) (F : α → String)
    (h : ∀ acc x, step acc x = acc ++ F x) :
    ∀ (l : List α) (acc : String), l.foldl step acc = acc ++ strJoin (l.map F) := by
  intro l
  induction l with
  | nil => intro acc; simp [strJoin]
  | cons x xs ih =>
    intro acc
    rw [List.foldl_cons, ih, h, List.map_cons]
    rw [show strJoin (F x :: xs.map F) = F x ++ strJoin (xs.map F) from rfl]
    rw [String.append_assoc]

/-- The facility enum text is never empty (it always carries its fixed
wrapper). -/
theorem facility_enum_ne_empty (g : ErrorCodeDefinitionGenerator) :
    (g.get_facility_enum_def == "") = false := by
  rw [beq_eq_false_iff_ne]
  intro h
  have hlen := congrArg String.length h
  simp only [ErrorCodeDefinitionGenerator.get_facility_enum_def, String.length_append] at hlen
  have h2 : ("\x7d ADUC_Facility;\n" : String).length = 17 := by decide
  have h3 : ("" : String).length = 0 := by decide
  omega

/-- A component enum block is never empty. -/
theorem component_enum_ne_empty (fc : FacilityCode) :
    (ErrorCodeDefinitionGenerator.get_component_enum_for_facility fc == "") = false := by
  rw [beq_eq_false_iff_ne]
  intro h
  have hlen := congrArg String.length h
  simp only [ErrorCodeDefinitionGenerator.get_component_enum_for_facility,
    String.length_append] at hlen
  have h2 : ("_Components;\n\n" : String).length = 14 := by decide
  have h3 : ("" : String).length = 0 := by decide
  omega

/-- The component-enum loop never takes its empty-string escape: it returns
the accumulator followed by the blocks of the facilities that have
components. -/
theorem componentEnumsLoop_eq :
    ∀ (l : List FacilityCode) (acc : String),
      componentEnumsLoop l acc =
        some (acc ++ strJoin ((l.filter (fun f => f.components.length != 0)).map
          ErrorCodeDefinitionGenerator.get_component_enum_for_facility)) := by
  intro l
  induction l with
  | nil => intro acc; simp [componentEnumsLoop, strJoin]
  | cons fc fs ih =>
    intro acc
    simp only [componentEnumsLoop]
    by_cases h : (fc.components.length != 0) = true
    · rw [if_pos h, if_neg (by rw [component_enum_ne_empty fc]; exact fun x => nomatch x)]
      rw [ih]
      simp only [List.filter_cons, h, if_pos, List.map_cons]
      rw [show strJoin (ErrorCodeDefinitionGenerator.get_component_enum_for_facility fc ::
            (List.map ErrorCodeDefinitionGenerator.get_component_enum_for_facility
              (List.filter (fun f => f.components.length != 0) fs))) =
          ErrorCodeDefinitionGenerator.get_component_enum_for_facility fc ++
            strJoin (List.map ErrorCodeDefinitionGenerator.get_component_enum_for_facility
              (List.filter (fun f => f.components.length != 0) fs)) from rfl]
      rw [String.append_assoc]
    · rw [if_neg h, ih]
      have hb : (fc.components.length != 0) = false := by
        revert h
        cases fc.components.length != 0 <;> simp
      simp only [List.filter_cons, hb, if_neg, Bool.false_eq_true, if_false]

/-- The first rendered section always splits into the facility enum and the
blocks of the facilities that have components. -/
theorem facility_and_component_defs_eq (g : ErrorCodeDefinitionGenerator) :
    g.get_facility_and_component_code_defs =
      g.get_facility_enum_def ++ "\n" ++ specComponentEnumBlocks g := by
  simp only [ErrorCodeDefinitionGenerator.get_facility_and_component_code_defs]
  rw [if_neg (by rw [facility_enum_ne_empty g]; exact fun x => nomatch x)]
  rw [componentEnumsLoop_eq]
  rw [String.empty_append]
  rfl

/-- The make-accessor section is the join, over facilities in order, of the
facility accessor followed by its components' accessors. -/
theorem erc_make_functions_eq (g : ErrorCodeDefinitionGenerator) :
    g.get_erc_make_functions = specMakeAccessors g := by
  unfold ErrorCodeDefinitionGenerator.get_erc_make_functions specMakeAccessors
  rw [foldl_congr_append _
    (fun f => f.get_func_def_string ++ "\n" ++
      strJoin (f.components.map (fun c =>
        c.get_func_def_string f.get_facility_func_decl_string ++ "\n")))
    (fun acc f => by
      rw [foldl_congr_append _
        (fun c => c.get_func_def_string f.get_facility_func_decl_string ++ "\n")
        (fun acc2 c => by rw [String.append_assoc]) f.components]
      simp [String.append_assoc])]
  rw [String.empty_append]

/-- The result-constant section is the join, over the hierarchy in order, of
one annotated define per result. -/
theorem extended_result_code_defs_eq (g : ErrorCodeDefinitionGenerator) :
    g.get_extended_result_code_defs = specResultConstants g := by
  unfold ErrorCodeDefinitionGenerator.get_extended_result_code_defs specResultConstants
  rw [foldl_congr_append _
    (fun fc => strJoin (fc.components.map (fun c =>
      strJoin (c.results.map (fun r =>
        CreateBriefDoxyString
            (r.name ++ ", ERC Value: " ++ toString r.full_erc_value ++ " (" ++
              pyHex r.full_erc_value ++ ")") ++
          ("#define " ++ r.name ++ " " ++ c.get_component_func_decl_string ++ "(" ++
            toString r.rc_value ++ ")\n") ++ "\n")))))
    (fun acc fc => by
      rw [foldl_congr_append _
        (fun c => strJoin (c.results.map (fun r =>
          CreateBriefDoxyString
              (r.name ++ ", ERC Value: " ++ toString r.full_erc_value ++ " (" ++
                pyHex r.full_erc_value ++ ")") ++
            ("#define " ++ r.name ++ " " ++ c.get_component_func_decl_string ++ "(" ++
              toString r.rc_value ++ ")\n") ++ "\n")))
        (fun acc2 c => by
          rw [foldl_congr_append _
            (fun r => CreateBriefDoxyString
                (r.name ++ ", ERC Value: " ++ toString r.full_erc_value ++ " (" ++
                  pyHex r.full_erc_value ++ ")") ++
              ("#define " ++ r.name ++ " " ++ c.get_component_func_decl_string ++ "(" ++
                toString r.rc_value ++ ")\n") ++ "\n")
            (fun acc3 r => by
              rw [show ResultCode.get_c_definition r c.get_component_func_decl_string 0 =
                  "#define " ++ r.name ++ " " ++ c.get_component_func_decl_string ++ "(" ++
                    toString r.rc_value ++ ")\n" from rfl]
              rw [show ResultCode.get_doxy_comment r = CreateBriefDoxyString
                  (r.name ++ ", ERC Value: " ++ toString r.full_erc_value ++ " (" ++
                    pyHex r.full_erc_value ++ ")") from rfl]
              simp [String.append_assoc]) c.results]) fc.components]) g.facilities ""]
  rw [String.empty_append]


/-- C6: a model with zero facilities makes `generate_result_h_file` fail
(return `none`, the embedding of the source returning `False`), and the
failing check precedes the file write, so no output text is produced. -/
theorem C6_empty_model_fails :
    ∀ g : ErrorCodeDefinitionGenerator, g.facilities = [] →
      g.generate_result_h_file = none := by
  intro g h
  obtain ⟨facs⟩ := g
  have h2 : facs = [] := h
  subst h2
  rfl

/-- Witness for C6: the empty generator. -/
theorem C6_empty_model_fails_witness :
    ErrorCodeDefinitionGenerator.generate_result_h_file ⟨[]⟩ = none :=
  C6_empty_model_fails ⟨[]⟩ rfl

/-- C7: emission is deterministic — equal models give byte-identical output,
and two successful runs on the same model agree on the produced text. -/
theorem C7_deterministic :
    (∀ g1 g2 : ErrorCodeDefinitionGenerator, g1 = g2 →
      g1.generate_result_h_file = g2.generate_result_h_file) ∧
    (∀ (g : ErrorCodeDefinitionGenerator) (s1 s2 : String),
      g.generate_result_h_file = some s1 → g.generate_result_h_file = some s2 →
        s1 = s2) := by
  constructor
  · intro g1 g2 h
    rw [h]
  · intro g s1 s2 h1 h2
    rw [h1] at h2
    exact Option.some_inj.mp h2

/-- Witness for C7: two runs on the minimal demo model produce the same
text. -/
theorem C7_deterministic_witness :
    ErrorCodeDefinitionGenerator.generate_result_h_file demoGen = some demoOut ∧
    demoOut = demoOut := by
  have h : ErrorCodeDefinitionGenerator.generate_result_h_file demoGen = some demoOut := by
    rfl
  exact ⟨h, C7_deterministic.2 demoGen demoOut demoOut h h⟩

/-- C8: every successfully emitted artifact is the fixed template around, in
order: the facility enum with the component enum blocks of exactly the
facilities that have components; the make accessors, facility first then its
components; and one annotated named constant per result.  Each component
accessor forwards to its facility's accessor with the component's own name
bound in. -/
theorem C8_artifact_structure :
    (∀ (g : ErrorCodeDefinitionGenerator) (s : String),
      g.generate_result_h_file = some s →
      s = resultTemplatePart1 ++
            (g.get_facility_enum_def ++ "\n" ++ specComponentEnumBlocks g) ++
          resultTemplatePart2 ++ specMakeAccessors g ++
          resultTemplatePart3 ++ specResultConstants g ++ resultTemplatePart4) ∧
    (∀ (fc : FacilityCode) (c : ComponentCode),
      c.get_func_def_string fc.get_facility_func_decl_string =
        "/**\n* @brief Function for generating Extended Result Codes for " ++ c.name ++
          " Component\n*/\nstatic inline ADUC_Result_t " ++
          ("MAKE_ADUC_EXTENDEDRESULTCODE_FOR_COMPONENT_" ++ c.name) ++
          "(const int32_t value)\n\x7b\n    return " ++
          fc.get_facility_func_decl_string ++ "(" ++ c.name ++ ", value);\n\x7d\n") := by
  constructor
  · intro g s h
    simp only [ErrorCodeDefinitionGenerator.generate_result_h_file] at h
    by_cases hcond : (g.get_facility_and_component_code_defs == "" ||
        g.get_erc_make_functions == "" || g.get_extended_result_code_defs == "") = true
    · rw [if_pos hcond] at h
      cases h
    · rw [if_neg hcond] at h
      have hs := Option.some_inj.mp h
      rw [← hs]
      unfold error_code_definition_file
      rw [facility_and_component_defs_eq, erc_make_functions_eq,
        extended_result_code_defs_eq]
  · intro fc c
    rfl

/-- Witness for C8 at the minimal demo model. -/
theorem C8_artifact_structure_witness :
    demoOut = resultTemplatePart1 ++
        (ErrorCodeDefinitionGenerator.get_facility_enum_def demoGen ++ "\n" ++
          specComponentEnumBlocks demoGen) ++
      resultTemplatePart2 ++ specMakeAccessors demoGen ++
      resultTemplatePart3 ++ specResultConstants demoGen ++ resultTemplatePart4 :=
  C8_artifact_structure.1 demoGen demoOut (by rfl)

end ErcGen
